import Mathlib

/-!
Verification development for the CRAG-MM retrieval-augmented context
construction pipeline (agents/domain_utils.py, agents/structured_data_parser.py,
agents/rag_mm_agent.py).  The Python source is shallowly embedded: dicts become
association lists, Python values become small inductive types, the effectful
retrieval and generation collaborators become explicit oracles, and the
per-batch procedure becomes a pure function that also reports a log of the
collaborator calls it performed.
-/

/-! ### Character and string helpers (Python string operations) -/

/-- Character 39, the ASCII apostrophe, used by Python `repr` of strings. -/
def aposChar : Char := Char.ofNat 39

/-- Character 123, the ASCII left curly brace. -/
def lbraceChar : Char := Char.ofNat 123

/-- Character 125, the ASCII right curly brace. -/
def rbraceChar : Char := Char.ofNat 125

/-- `startsWithChars pat s` holds when `pat` is an initial segment of `s`
(Python `str.startswith` on exploded strings). -/
def startsWithChars : List Char → List Char → Bool
  | [], _ => true
  | _ :: _, [] => false
  | a :: as, b :: bs => a == b && startsWithChars as bs

/-- `containsChars pat s`: `pat` occurs contiguously inside `s`
(Python `in` on strings). -/
def containsChars (pat : List Char) : List Char → Bool
  | [] => startsWithChars pat []
  | c :: rest => startsWithChars pat (c :: rest) || containsChars pat rest

/-- Python `sub in s`. -/
def strContains (s sub : String) : Bool :=
  containsChars sub.data s.data

/-- Python `s.startswith(pat)`. -/
def strStartsWith (s pat : String) : Bool :=
  startsWithChars pat.data s.data

/-- Python `s.lower()` (ASCII case folding, as in the source's data). -/
def strToLower (s : String) : String :=
  String.mk (s.data.map Char.toLower)

/-- Remove every (left-to-right, non-overlapping) occurrence of the
two-character pattern `a b`, as Python `s.replace(ab, "")`. -/
def removeTwo (a b : Char) : List Char → List Char
  | [] => []
  | [c] => [c]
  | c :: d :: rest =>
    if c == a && d == b then removeTwo a b rest
    else c :: removeTwo a b (d :: rest)

/-- All characters of `s` before the first occurrence of the pattern `pat`
(Python `s.split(pat)[0]`). -/
def takeUntilChars (pat : List Char) : List Char → List Char
  | [] => []
  | c :: rest =>
    if startsWithChars pat (c :: rest) then []
    else c :: takeUntilChars pat rest

/-- Python `s.split(pat)[0]` on strings. -/
def takeUntilStr (pat s : String) : String :=
  String.mk (takeUntilChars pat.data s.data)

/-- Python `s.replace("[[", "").replace("]]", "")`. -/
def stripSquare (s : String) : String :=
  String.mk (removeTwo ']' ']' (removeTwo '[' '[' s.data))

/-- Python `s.replace("[[", "").replace("]]", "").replace("{{", "").replace("}}", "")`
as performed by the generic formatter. -/
def stripMarkers (s : String) : String :=
  String.mk (removeTwo rbraceChar rbraceChar
    (removeTwo lbraceChar lbraceChar
      (removeTwo ']' ']' (removeTwo '[' '[' s.data))))

/-- Membership of a character in Python's default `strip` whitespace set. -/
def isPySpace (c : Char) : Bool :=
  c == ' ' || c == '\n' || c == '\t' || c == '\r'

/-- Python `s.strip()`. -/
def pyStrip (s : String) : String :=
  String.mk (((s.data.dropWhile isPySpace).reverse.dropWhile isPySpace).reverse)

/-- Python `s.rstrip(", ")`: drop trailing commas and spaces. -/
def pyRStripCommaSpace (s : String) : String :=
  String.mk ((s.data.reverse.dropWhile (fun c => c == ',' || c == ' ')).reverse)

/-- Python `", ".join(parts)`. -/
def joinComma (parts : List String) : String :=
  String.intercalate ", " parts

/-! ### Python scalar values (`domain` ids, `session_id` values, dict values) -/

/-- A Python scalar as it appears in the benchmark's message payloads:
an integer, a string, or `None`.  Ids outside this grammar behave like the
string/None cases (every non-integer key misses the integer-keyed tables). -/
inductive PyVal where
  | int (i : Int)
  | str (s : String)
  | none
deriving DecidableEq

/-- Python truthiness of a `PyVal` (`bool(v)`). -/
def pyTruthy : PyVal → Bool
  | .int i => i != 0
  | .str s => s != ""
  | .none => false

/-- Python `repr` of a `PyVal` (string escaping is not needed by the inputs
used here). -/
def pyValRepr : PyVal → String
  | .int i => toString i
  | .str s => String.singleton aposChar ++ s ++ String.singleton aposChar
  | .none => "None"

/-- Python `str` of a dict with string keys and `PyVal` values, e.g.
`\x7b'text': 'hi'\x7d`. -/
def pyStrValDict (d : List (String × PyVal)) : String :=
  String.singleton lbraceChar
    ++ joinComma (d.map (fun p =>
        String.singleton aposChar ++ p.1 ++ String.singleton aposChar
          ++ ": " ++ pyValRepr p.2))
    ++ String.singleton rbraceChar

/-- First value bound to key `k` in an association list modelling a Python
dict with string keys. -/
def vlookup (d : List (String × PyVal)) (k : String) : Option PyVal :=
  match d with
  | [] => Option.none
  | p :: rest => if p.1 = k then some p.2 else vlookup rest k

/-! ### domain_utils.py: the fixed id → tag tables -/

/-- `DOMAIN_MAP` from domain_utils.py. -/
def DOMAIN_MAP : List (Int × String) :=
  [(0, "food"), (1, "shopping"), (2, "landmark"), (3, "math_science"),
   (4, "art"), (5, "entertainment"), (6, "events"), (7, "nature"),
   (8, "people"), (9, "sports"), (10, "technology"), (11, "transportation"),
   (12, "other")]

/-- `QUERY_CATEGORY_MAP` from domain_utils.py. -/
def QUERY_CATEGORY_MAP : List (Int × String) :=
  [(0, "simple"), (1, "simple_w_condition"), (2, "comparison"),
   (3, "aggregation"), (4, "set"), (5, "false_premise"),
   (6, "post-processing"), (7, "multi-hop")]

/-- `DYNAMISM_MAP` from domain_utils.py. -/
def DYNAMISM_MAP : List (Int × String) :=
  [(0, "static"), (1, "slow-changing"), (2, "fast-changing"), (3, "real-time")]

/-- Python `table.get(k, dflt)` on an integer-keyed dict. -/
def mapGetD : List (Int × String) → Int → String → String
  | [], _, d => d
  | p :: rest, k, d => if p.1 = k then p.2 else mapGetD rest k d

/-- `get_domain_name` from domain_utils.py: a non-integer or out-of-range id
misses the table and yields the default "other". -/
def get_domain_name : PyVal → String
  | .int i => mapGetD DOMAIN_MAP i "other"
  | _ => "other"

/-- `get_query_category_name` from domain_utils.py. -/
def get_query_category_name : PyVal → String
  | .int i => mapGetD QUERY_CATEGORY_MAP i "simple"
  | _ => "simple"

/-- `get_dynamism_name` from domain_utils.py. -/
def get_dynamism_name : PyVal → String
  | .int i => mapGetD DYNAMISM_MAP i "static"
  | _ => "static"

/-! ### domain_utils.py: keyword-based domain inference -/

/-- The ordered `domain_keywords` table of `infer_domain_from_query`
(Python 3.7+ dicts iterate in insertion order, so this is a priority list). -/
def domain_keywords : List (String × List String) :=
  [("food", ["food", "dish", "meal", "recipe", "ingredient", "cuisine",
             "eat", "drink", "cook", "bake"]),
   ("shopping", ["product", "price", "brand", "buy", "purchase", "cost",
                 "store", "shop", "mall"]),
   ("landmark", ["landmark", "building", "monument", "museum", "tourist",
                 "location", "place", "visit"]),
   ("math_science", ["math", "science", "formula", "equation", "calculate",
                     "physics", "chemistry", "biology"]),
   ("art", ["art", "painting", "sculpture", "museum", "artist", "gallery",
            "draw", "creative"]),
   ("entertainment", ["movie", "film", "series", "show", "actor", "actress",
                      "director", "watch"]),
   ("events", ["event", "conference", "meeting", "festival", "concert",
               "exhibition", "ceremony"]),
   ("nature", ["nature", "plant", "animal", "flower", "tree", "landscape",
               "outdoor", "environment", "bin", "recycle", "battery"]),
   ("people", ["person", "people", "man", "woman", "child", "family",
               "group"]),
   ("sports", ["sport", "game", "team", "player", "match", "competition",
               "athlete", "race"]),
   ("technology", ["technology", "device", "computer", "phone", "gadget",
                   "tech", "digital", "battery"]),
   ("transportation", ["car", "vehicle", "train", "bus", "transportation",
                       "travel", "trip", "journey"])]

/-- `any(keyword in query_lower for keyword in keywords)`. -/
def kwMatches (ql : String) (kws : List String) : Bool :=
  kws.any (fun kw => strContains ql kw)

/-- The linear first-match scan of `infer_domain_from_query`. -/
def firstMatch (ql : String) : List (String × List String) → String
  | [] => "other"
  | p :: rest => if kwMatches ql p.2 then p.1 else firstMatch ql rest

/-- `infer_domain_from_query` from domain_utils.py. -/
def infer_domain_from_query (query : String) : String :=
  firstMatch (strToLower query) domain_keywords

/-! ### Conversation turns -/

/-- One dict entry of a multimodal content list: the part's `type`, `text`
and `domain` keys (absent key = `Option.none`). -/
structure PartDict where
  ptype : Option String := Option.none
  ptext : Option String := Option.none
  pdomain : Option PyVal := Option.none
deriving DecidableEq

/-- An element of a content list: a dict part or a non-dict element. -/
inductive PartItem where
  | dict (d : PartDict)
  | nondict
deriving DecidableEq

/-- The `content` value of a history turn: a plain string, a multimodal list
of parts, or a dict payload. -/
inductive Content where
  | str (s : String)
  | parts (l : List PartItem)
  | dict (d : List (String × PyVal))
deriving DecidableEq

/-- A history turn: a dict with optional `role`, `content`, `session_id`
and `domain` keys (absent key = `Option.none`). -/
structure Message where
  role : Option String := Option.none
  content : Option Content := Option.none
  sessionId : Option PyVal := Option.none
  domainKey : Option PyVal := Option.none
deriving DecidableEq

/-! ### rag_mm_agent.py: history-based domain extraction -/

/-- The loop body of `RAGMMAgent.extract_session_info`: the domain update
contributed by the turn at position `i` (`some` when the turn is a user turn
at an even position whose dict content carries a `domain` key). -/
def turnDomain (i : Nat) (m : Message) : Option String :=
  if i % 2 = 0 ∧ m.role = some "user" then
    match m.content.getD (Content.str "") with
    | Content.dict d =>
      match vlookup d "domain" with
      | some v => some (get_domain_name v)
      | Option.none => Option.none
    | _ => Option.none
  else Option.none

/-- The accumulator loop of `extract_session_info`: each matching turn
overwrites the current domain. -/
def sessionDomAux (i : Nat) (acc : String) : List Message → String
  | [] => acc
  | m :: rest => sessionDomAux (i + 1) ((turnDomain i m).getD acc) rest

/-- The `current_info` record built by `extract_session_info` for one history. -/
structure SessionInfo where
  domain : String
  isMultiTurn : Bool
deriving DecidableEq

/-- `RAGMMAgent.extract_session_info` restricted to one history entry. -/
def extract_session_info_one (h : List Message) : SessionInfo :=
  { domain := sessionDomAux 0 "other" h, isMultiTurn := decide (0 < h.length) }

/-- `RAGMMAgent.extract_session_info` over a batch of histories. -/
def extract_session_info (hs : List (List Message)) : List SessionInfo :=
  hs.map extract_session_info_one

/-- The ordered list of domain tags contributed by user turns at even
positions (specification-side companion of `sessionDomAux`, used to state
which contribution the pipeline keeps). -/
def evenUserDomains (i : Nat) : List Message → List String
  | [] => []
  | m :: rest =>
    match turnDomain i m with
    | some d => d :: evenUserDomains (i + 1) rest
    | Option.none => evenUserDomains (i + 1) rest

/-- The domain contribution of a turn for
`extract_domain_from_message_history` (domain_utils.py): user turns expose a
`domain` key of a list part or of a dict content when its value is not
`None`; any turn exposes a top-level `domain` key. -/
def msgDomain (m : Message) : Option String :=
  let fromContent : Option String :=
    if m.role = some "user" then
      match m.content.getD (Content.str "") with
      | Content.parts l =>
        (l.findSome? (fun p =>
          match p with
          | .dict pd =>
            match pd.pdomain with
            | some v => if v ≠ PyVal.none then some (get_domain_name v) else Option.none
            | Option.none => Option.none
          | .nondict => Option.none))
      | Content.dict d =>
        match vlookup d "domain" with
        | some v => if v ≠ PyVal.none then some (get_domain_name v) else Option.none
        | Option.none => Option.none
      | _ => Option.none
    else Option.none
  match fromContent with
  | some d => some d
  | Option.none =>
    match m.domainKey with
    | some v => some (get_domain_name v)
    | Option.none => Option.none

/-- `extract_domain_from_message_history` from domain_utils.py: returns the
contribution of the first matching turn, `none` when no turn matches. -/
def extract_domain_from_message_history (h : List Message) : Option String :=
  if h = [] then Option.none else h.findSome? msgDomain

/-! ### rag_mm_agent.py: query enhancement and search query preparation -/

/-- The `domain_prefixes` table of `RAGMMAgent._enhance_query`. -/
def domain_prefixes : List (String × String) :=
  [("food", "food dish "), ("shopping", "product item "),
   ("landmark", "landmark building "),
   ("nature", "nature landscape recycling bin "),
   ("people", "person people "), ("sports", "sports game "),
   ("technology", "technology device battery "),
   ("transportation", "vehicle transportation ")]

/-- Python `table.get(k, "")` on a string-keyed dict of strings. -/
def strMapGetD : List (String × String) → String → String → String
  | [], _, d => d
  | p :: rest, k, d => if p.1 = k then p.2 else strMapGetD rest k d

/-- `RAGMMAgent._enhance_query`. -/
def enhance_query (query domain : String) : String :=
  strMapGetD domain_prefixes domain "" ++ query

/-- The per-item domain resolution of `RAGMMAgent.prepare_search_queries`:
history extraction, with text inference as fallback whenever it yields
"other". -/
def resolveItemDomain (query : String) (h : List Message) : String :=
  let d := (extract_session_info_one h).domain
  if d = "other" then infer_domain_from_query query else d

/-- `RAGMMAgent.prepare_search_queries` (the zip truncates to the shortest
input, as in Python). -/
def prepare_search_queries (qs : List String) (ims : List Nat)
    (hs : List (List Message)) : List String :=
  (qs.zip (ims.zip hs)).map (fun p => enhance_query p.1 (resolveItemDomain p.1 p.2.2))

/-! ### rag_mm_agent.py: prompt history sanitization -/

/-- The text flattening `_process_message_history` applies to one `content`
value: list payloads are flattened by joining the text of parts typed
"text" with single spaces, dict payloads are rendered with Python `str`,
plain strings pass through. -/
def renderContent : Content → String
  | Content.str s => s
  | Content.parts l =>
    String.intercalate " "
      (l.filterMap (fun p =>
        match p with
        | .dict pd => if pd.ptype = some "text" then some (pd.ptext.getD "") else Option.none
        | .nondict => Option.none))
  | Content.dict d => pyStrValDict d

/-- `RAGMMAgent._process_message_history`: turns missing `role` or `content`
are dropped; the rest keep their role and get flattened content. -/
def process_message_history (h : List Message) : List (String × String) :=
  h.filterMap (fun m =>
    match m.role, m.content with
    | some r, some c => some (r, renderContent c)
    | _, _ => Option.none)

/-! ### rag_mm_agent.py: session cache -/

/-- The session cache: a Python dict keyed by the session identifier value,
holding ordered lists of (query, response) pairs. -/
abbrev SessionCache := List (PyVal × List (String × String))

/-- The scan of `_update_session_cache`: the `session_id` value of the first
turn carrying that key. -/
def findSessionId (h : List Message) : Option PyVal :=
  (h.find? (fun m => m.sessionId.isSome)).bind (fun m => m.sessionId)

/-- Python dict update `cache[sid].append(pr)` after `cache.setdefault(sid, [])`:
append to the entry with key `sid`, creating it at the end when absent. -/
def cacheAppend (cache : SessionCache) (sid : PyVal) (pr : String × String) :
    SessionCache :=
  match cache with
  | [] => [(sid, [pr])]
  | e :: rest =>
    if e.1 = sid then (e.1, e.2 ++ [pr]) :: rest
    else e :: cacheAppend rest sid pr

/-- Lookup in the session cache. -/
def cacheLookup (cache : SessionCache) (sid : PyVal) :
    Option (List (String × String)) :=
  match cache with
  | [] => Option.none
  | e :: rest => if e.1 = sid then some e.2 else cacheLookup rest sid

/-- The key list of the session cache. -/
def cacheKeys (cache : SessionCache) : List PyVal :=
  cache.map (fun e => e.1)

/-- One iteration of `RAGMMAgent._update_session_cache`: empty histories are
skipped; the first turn carrying a `session_id` key decides; a falsy value
(`""`, `0`, `None`) makes the update a no-op. -/
def update_session_cache_one (cache : SessionCache) (q r : String)
    (h : List Message) : SessionCache :=
  if h = [] then cache
  else
    match findSessionId h with
    | Option.none => cache
    | some sid => if pyTruthy sid then cacheAppend cache sid (q, r) else cache

/-- `RAGMMAgent._update_session_cache` over a batch (the zip truncates to the
shortest input, as in Python). -/
def update_session_cache (cache : SessionCache) (qs rs : List String)
    (hs : List (List Message)) : SessionCache :=
  ((qs.zip rs).zip hs).foldl
    (fun c p => update_session_cache_one c p.1.1 p.1.2 p.2) cache

/-! ### structured_data_parser.py: attribute values -/

/-- A value of an entity attribute mapping: a string, an integer, a list, or
a nested mapping. -/
inductive AttrVal where
  | str (s : String)
  | int (i : Int)
  | list (l : List AttrVal)
  | dict (d : List (String × AttrVal))

/-- Python truthiness of an attribute value. -/
def pyTruthyAttr : AttrVal → Bool
  | .str s => s != ""
  | .int i => i != 0
  | .list l => !l.isEmpty
  | .dict d => !d.isEmpty

/-- First value bound to key `k` in an attribute mapping. -/
def alookup (k : String) : List (String × AttrVal) → Option AttrVal
  | [] => Option.none
  | p :: rest => if p.1 = k then some p.2 else alookup k rest

mutual
/-- Python `str` of an attribute value (f-string rendering). -/
def pyStrAttr : AttrVal → String
  | .str s => s
  | .int i => toString i
  | .list l => "[" ++ joinComma (pyReprAttrList l) ++ "]"
  | .dict d =>
    String.singleton lbraceChar ++ joinComma (pyReprAttrPairs d)
      ++ String.singleton rbraceChar

/-- Python `repr` of an attribute value (string escaping is not needed by the
inputs used here). -/
def pyReprAttr : AttrVal → String
  | .str s => String.singleton aposChar ++ s ++ String.singleton aposChar
  | .int i => toString i
  | .list l => "[" ++ joinComma (pyReprAttrList l) ++ "]"
  | .dict d =>
    String.singleton lbraceChar ++ joinComma (pyReprAttrPairs d)
      ++ String.singleton rbraceChar

/-- `repr` of each element of a list value. -/
def pyReprAttrList : List AttrVal → List String
  | [] => []
  | a :: rest => pyReprAttr a :: pyReprAttrList rest

/-- `'key': repr(value)` rendering of each entry of a dict value. -/
def pyReprAttrPairs : List (String × AttrVal) → List String
  | [] => []
  | p :: rest =>
    (String.singleton aposChar ++ p.1 ++ String.singleton aposChar
      ++ ": " ++ pyReprAttr p.2) :: pyReprAttrPairs rest
end

/-- Python `data.get(k, dflt)` rendered through an f-string.  The landmark
formatter applies string operations directly to the looked-up values, which
are strings in the benchmark's wiki-style records; non-string values are
rendered through `str` here. -/
def getAttrString (data : List (String × AttrVal)) (k dflt : String) : String :=
  match alookup k data with
  | some v => pyStrAttr v
  | Option.none => dflt

/-- Python `data.get(k1, data.get(k2, dflt))`: the raw value under the first
present alias key. -/
def getAttr2 (data : List (String × AttrVal)) (k1 k2 : String) : Option AttrVal :=
  match alookup k1 data with
  | some v => some v
  | Option.none => alookup k2 data

/-- `", ".join(l)` over a list value whose elements the source assumes to be
strings (rendered through `str` here). -/
def joinListAttr (l : List AttrVal) : String :=
  joinComma (l.map pyStrAttr)

/-- An optional `Label: value` line emitted for a field whose raw value is
truthy (`if value: result += f"Label: {value}\n"`). -/
def fieldLine (label : String) (v : Option AttrVal) : String :=
  match v with
  | some w => if pyTruthyAttr w then label ++ ": " ++ pyStrAttr w ++ "\n" else ""
  | Option.none => ""

/-! ### structured_data_parser.py: domain formatters -/

/-- `StructuredDataParser.parse_food`. -/
def parse_food (data : List (String × AttrVal)) : String :=
  let name :=
    match getAttr2 data "name" "dish_name" with
    | some v => pyStrAttr v
    | Option.none => "Unknown dish"
  let r := "<Food>\n" ++ "Name: " ++ name ++ "\n"
  let r := r ++ fieldLine "Type" (getAttr2 data "food_type" "type")
  let r := r ++
    (match alookup "ingredients" data with
     | some (AttrVal.list l) =>
       if !l.isEmpty then "Ingredients: " ++ joinListAttr l ++ "\n" else ""
     | some v => if pyTruthyAttr v then "Ingredients: " ++ pyStrAttr v ++ "\n" else ""
     | Option.none => "")
  let r :=
    match alookup "nutrition" data with
    | some (AttrVal.dict d) =>
      if !d.isEmpty then
        pyRStripCommaSpace
          (r ++ "Nutrition: "
            ++ String.join (d.map (fun p => p.1 ++ ": " ++ pyStrAttr p.2 ++ ", ")))
          ++ "\n"
      else r
    | some v =>
      if pyTruthyAttr v then r ++ "Nutrition: " ++ pyStrAttr v ++ "\n" else r
    | Option.none => r
  let r := r ++ fieldLine "Cooking Method" (getAttr2 data "cooking_method" "preparation")
  let r := r ++ fieldLine "Cuisine" (getAttr2 data "cuisine" "origin")
  r ++ "</Food>"

/-- The `Specifications` block shared by the shopping and technology
formatters. -/
def specBlock (v : Option AttrVal) : String :=
  match v with
  | some (AttrVal.dict d) =>
    if !d.isEmpty then
      "Specifications:\n"
        ++ String.join (d.map (fun p => "  - " ++ p.1 ++ ": " ++ pyStrAttr p.2 ++ "\n"))
    else ""
  | some w =>
    if pyTruthyAttr w then "Specifications:\n" ++ "  - " ++ pyStrAttr w ++ "\n" else ""
  | Option.none => ""

/-- `StructuredDataParser.parse_shopping`. -/
def parse_shopping (data : List (String × AttrVal)) : String :=
  let name :=
    match getAttr2 data "name" "product_name" with
    | some v => pyStrAttr v
    | Option.none => "Unknown product"
  let r := "<Product>\n" ++ "Name: " ++ name ++ "\n"
  let r := r ++ fieldLine "Brand" (getAttr2 data "brand" "manufacturer")
  let r := r ++ fieldLine "Price" (getAttr2 data "price" "cost")
  let r := r ++ fieldLine "Category" (getAttr2 data "category" "type")
  let r := r ++ specBlock (getAttr2 data "specifications" "specs")
  r ++ "</Product>"

/-- `StructuredDataParser.parse_landmark`.  Only the name is truncated at
`<br` (and only when it contains a template opener), only the address is
truncated unconditionally, and only the four wiki-link fields have `[[`/`]]`
stripped; no URL or emptiness suppression happens after cleaning. -/
def parse_landmark (data : List (String × AttrVal)) : String :=
  let name := getAttrString data "name" "Unknown landmark"
  let name :=
    if strContains name (String.mk [lbraceChar, lbraceChar])
    then takeUntilStr "<br" name else name
  let r := "<Landmark>\n" ++ "Name: " ++ name ++ "\n"
  let r :=
    match alookup "address" data with
    | some v =>
      if pyTruthyAttr v then
        let a := stripSquare (pyStrAttr v)
        let a := if strContains a "<br" then takeUntilStr "<br" a else a
        r ++ "Address: " ++ a ++ "\n"
      else r
    | Option.none => r
  let r :=
    match alookup "building_type" data with
    | some v =>
      if pyTruthyAttr v then r ++ "Type: " ++ stripSquare (pyStrAttr v) ++ "\n" else r
    | Option.none => r
  let r :=
    match alookup "architectural_style" data with
    | some v =>
      if pyTruthyAttr v then r ++ "Style: " ++ stripSquare (pyStrAttr v) ++ "\n" else r
    | Option.none => r
  let r := r ++ fieldLine "Floors" (alookup "floor_count" data)
  let r :=
    match alookup "architect" data with
    | some v =>
      if pyTruthyAttr v then r ++ "Architect: " ++ stripSquare (pyStrAttr v) ++ "\n" else r
    | Option.none => r
  let r := r ++ fieldLine "Completed" (alookup "completion_date" data)
  r ++ "</Landmark>"

/-- `StructuredDataParser.parse_nature`. -/
def parse_nature (data : List (String × AttrVal)) : String :=
  let name := getAttrString data "name" "Unknown"
  let r := "<Nature>\n" ++ "Name: " ++ name ++ "\n"
  let r := r ++ fieldLine "Type" (alookup "type" data)
  let r := r ++ fieldLine "Location" (alookup "location" data)
  let r := r ++ fieldLine "Rules" (getAttr2 data "rules" "policy")
  let r := r ++ fieldLine "Recyclable" (getAttr2 data "recyclable" "can_recycle")
  let r := r ++
    (match alookup "materials" data with
     | some (AttrVal.list l) =>
       if !l.isEmpty then "Materials: " ++ joinListAttr l ++ "\n" else ""
     | some v => if pyTruthyAttr v then "Materials: " ++ pyStrAttr v ++ "\n" else ""
     | Option.none => "")
  r ++ "</Nature>"

/-- `StructuredDataParser.parse_people`. -/
def parse_people (data : List (String × AttrVal)) : String :=
  let name := getAttrString data "name" "Unknown person"
  let r := "<Person>\n" ++ "Name: " ++ name ++ "\n"
  let r := r ++ fieldLine "Born" (getAttr2 data "birth_date" "born")
  let r := r ++ fieldLine "Occupation" (alookup "occupation" data)
  let r := r ++ fieldLine "Nationality" (alookup "nationality" data)
  let r := r ++ fieldLine "Known for" (getAttr2 data "achievements" "known_for")
  r ++ "</Person>"

/-- `StructuredDataParser.parse_technology`. -/
def parse_technology (data : List (String × AttrVal)) : String :=
  let name := getAttrString data "name" "Unknown device"
  let r := "<Technology>\n" ++ "Name: " ++ name ++ "\n"
  let r := r ++ fieldLine "Type" (getAttr2 data "type" "category")
  let r := r ++ fieldLine "Brand" (getAttr2 data "brand" "manufacturer")
  let r := r ++ specBlock (getAttr2 data "specifications" "specs")
  let r := r ++ fieldLine "Disposal" (getAttr2 data "disposal" "recycling")
  let r := r ++ fieldLine "Environmental Impact" (alookup "environmental_impact" data)
  r ++ "</Technology>"

/-- The fixed key set the generic formatter skips outright. -/
def genericSkipKeys : List String :=
  ["image", "image_size", "coordinates", "mapframe_wikidata"]

/-- `StructuredDataParser.parse_generic`: markup stripping and URL/empty
suppression apply to string values; dict values recurse one level with
empty/URL suppression only; list values are comma-joined. -/
def parse_generic (data : List (String × AttrVal)) : String :=
  let body := data.foldl (fun acc kv =>
    if kv.1 ∈ genericSkipKeys then acc
    else
      match kv.2 with
      | AttrVal.str s =>
        let s := stripMarkers s
        if s = "" || strStartsWith s "http" || strContains s "URL|" then acc
        else acc ++ (kv.1 ++ ": " ++ s ++ "\n")
      | AttrVal.dict d =>
        acc ++ (kv.1 ++ ":\n"
          ++ String.join (d.map (fun p =>
              match p.2 with
              | AttrVal.str vs =>
                if vs = "" || strStartsWith vs "http" then ""
                else "  - " ++ p.1 ++ ": " ++ vs ++ "\n"
              | w => "  - " ++ p.1 ++ ": " ++ pyStrAttr w ++ "\n")))
      | AttrVal.list l => acc ++ (kv.1 ++ ": " ++ joinListAttr l ++ "\n")
      | AttrVal.int i => acc ++ (kv.1 ++ ": " ++ toString i ++ "\n")) ""
  "<Info>\n" ++ body ++ "</Info>"

/-- `StructuredDataParser.parse`: dispatch on the domain tag, with the
generic formatter as the fallback entry. -/
def parserParse (domain : String) (data : List (String × AttrVal)) : String :=
  if domain = "food" then parse_food data
  else if domain = "shopping" then parse_shopping data
  else if domain = "landmark" then parse_landmark data
  else if domain = "math_science" then parse_generic data
  else if domain = "art" then parse_generic data
  else if domain = "entertainment" then parse_generic data
  else if domain = "events" then parse_generic data
  else if domain = "nature" then parse_nature data
  else if domain = "people" then parse_people data
  else if domain = "sports" then parse_generic data
  else if domain = "technology" then parse_technology data
  else if domain = "transportation" then parse_generic data
  else parse_generic data

/-! ### rag_mm_agent.py: search hit processing -/

/-- One entity record of an image-search hit: the `entity_name` and
`entity_attributes` keys (the inner `Option` is Python `None` as a value). -/
structure EntityRec where
  entityName : Option String := Option.none
  entityAttrs : Option (Option (List (String × AttrVal))) := Option.none

/-- A search hit: a dict carrying `entities` for the image channel and
`page_snippet` / `page_name` for the web channel. -/
structure SearchHit where
  entities : Option (List EntityRec) := Option.none
  pageSnippet : Option String := Option.none
  pageName : Option String := Option.none

/-- `RAGMMAgent._infer_entity_domain`: keyword scan over
`str(entity_attributes).lower()`. -/
def infer_entity_domain (attrs : List (String × AttrVal)) : String :=
  let s := strToLower (pyStrAttr (AttrVal.dict attrs))
  if ["food", "dish", "meal", "recipe", "ingredient", "cuisine"].any
      (fun kw => strContains s kw) then "food"
  else if ["product", "price", "brand", "buy", "store"].any
      (fun kw => strContains s kw) then "shopping"
  else if ["building", "architect", "address", "location"].any
      (fun kw => strContains s kw) then "landmark"
  else if ["person", "born", "birth"].any
      (fun kw => strContains s kw) then "people"
  else if ["recycle", "battery", "bin"].any
      (fun kw => strContains s kw) then "nature"
  else "other"

/-- The Python dict display `\x7b"name": entity_name, **entity_attributes\x7d`:
the `name` key comes first (an attribute also called `name` overrides the
entity name but keeps the first position); the remaining attributes keep
their order. -/
def mergeNameAttrs (n : String) (attrs : List (String × AttrVal)) :
    List (String × AttrVal) :=
  ("name", (alookup "name" attrs).getD (AttrVal.str n))
    :: attrs.filter (fun p => p.1 ≠ "name")

/-- The evidence text contributed by one entity of one image-search hit. -/
def entityBlock (e : EntityRec) : String :=
  let nm := e.entityName.getD "Unknown"
  let attrs :=
    match e.entityAttrs with
    | some (some a) => a
    | _ => []
  parserParse (infer_entity_domain attrs) (mergeNameAttrs nm attrs)

/-- One iteration of `RAGMMAgent.process_image_search_results`: concatenate
the parsed entities of every hit with blank-line separators and strip. -/
def processOneImageResult (resultList : List SearchHit) : String :=
  if resultList.isEmpty then ""
  else
    pyStrip (resultList.foldl (fun acc hit =>
      (hit.entities.getD []).foldl (fun acc2 e =>
        let pe := entityBlock e
        if pe ≠ "" then acc2 ++ pe ++ "\n\n" else acc2) acc) "")

/-- `RAGMMAgent.process_image_search_results` over a batch. -/
def process_image_search_results (rs : List (List SearchHit)) : List String :=
  rs.map processOneImageResult

/-- One iteration of `RAGMMAgent.process_web_search_results`: hits without a
`page_snippet` key or with an empty snippet are skipped. -/
def processOneWebResult (resultList : List SearchHit) : String :=
  if resultList.isEmpty then ""
  else
    pyStrip (resultList.foldl (fun acc hit =>
      match hit.pageSnippet with
      | some sn =>
        if sn ≠ "" then
          acc ++ "From " ++ hit.pageName.getD "Unknown Source" ++ ":\n" ++ sn ++ "\n\n"
        else acc
      | Option.none => acc) "")

/-- `RAGMMAgent.process_web_search_results` over a batch. -/
def process_web_search_results (rs : List (List SearchHit)) : List String :=
  rs.map processOneWebResult

/-! ### rag_mm_agent.py: prompt assembly -/

/-- The content of one prompt message: plain text, or the final user turn's
image reference plus query text pair. -/
inductive MsgContent where
  | text (s : String)
  | imageAndText (q : String)
deriving DecidableEq

/-- One message handed to the generation collaborator. -/
structure ChatMsg where
  role : String
  content : MsgContent
deriving DecidableEq

/-- One item of the batched generation call: the assembled messages and the
item's image handle (the chat-template rendering of the external tokenizer
is out of scope). -/
structure PromptItem where
  messages : List ChatMsg
  image : Nat
deriving DecidableEq

/-- The fixed system instruction of `prepare_llm_prompts`. -/
def systemPromptText : String :=
  "You are a helpful visual assistant. Answer questions about the image "
    ++ "accurately and concisely based on what you can see and the provided context. "
    ++ "If you don" ++ String.singleton aposChar ++ "t know the answer, say "
    ++ String.singleton aposChar ++ "I don" ++ String.singleton aposChar
    ++ "t know" ++ String.singleton aposChar ++ "."

/-- The context element used for item `idx`:
`if contexts and idx < len(contexts) and contexts[idx]:`. -/
def ctxAt (ctxs : Option (List String)) (idx : Nat) : Option String :=
  match ctxs with
  | Option.none => Option.none
  | some l =>
    if !l.isEmpty && decide (idx < l.length) && l.getD idx "" != ""
    then some (l.getD idx "") else Option.none

/-- The message list assembled by `prepare_llm_prompts` for one item. -/
def buildMessages (query : String) (history : List Message)
    (imageCtx webCtx : Option String) : List ChatMsg :=
  let ms := [ChatMsg.mk "system" (MsgContent.text systemPromptText)]
  let ms := ms ++
    (if history ≠ [] then
      (process_message_history history).map (fun rc => ChatMsg.mk rc.1 (MsgContent.text rc.2))
    else [])
  let ms := ms ++
    (match imageCtx with
     | some c =>
       [ChatMsg.mk "system" (MsgContent.text
         ("Information about what" ++ String.singleton aposChar
           ++ "s in the image:\n\n" ++ c))]
     | Option.none => [])
  let ms := ms ++
    (match webCtx with
     | some c =>
       [ChatMsg.mk "system" (MsgContent.text
         ("Additional information from the web:\n\n" ++ c))]
     | Option.none => [])
  ms ++ [ChatMsg.mk "user" (MsgContent.imageAndText query)]

/-- `RAGMMAgent.prepare_llm_prompts` (the zip truncates to the shortest
input, as in Python). -/
def prepare_llm_prompts (qs : List String) (ims : List Nat)
    (hs : List (List Message)) (imageContexts webContexts : Option (List String)) :
    List PromptItem :=
  ((qs.zip (ims.zip hs)).enum).map (fun p =>
    PromptItem.mk
      (buildMessages p.2.1 p.2.2.2 (ctxAt imageContexts p.1) (ctxAt webContexts p.1))
      p.2.2.1)

/-! ### rag_mm_agent.py: the batched pipeline with explicit collaborators -/

/-- The external collaborators of one batch, as response oracles:
`imageSearch i img` is the outcome of the `i`-th image-similarity call (an
`error` models a raised exception), `capCheck` is the outcome of the
web-capability check itself, `webSearch i q` the outcome of the `i`-th web
call on query text `q`, and `gen` the per-prompt completion of the batched,
order-preserving generation call. -/
structure Collab where
  imageSearch : Nat → Nat → Except Unit (List SearchHit)
  capCheck : Except Unit Bool
  webSearch : Nat → String → Except Unit (List SearchHit)
  gen : PromptItem → String

/-- The `try/except` at each retrieval call site: an exception is replaced by
an empty hit list. -/
def recoverHits : Except Unit (List SearchHit) → List SearchHit
  | .ok l => l
  | .error _ => []

/-- Step 2 of `batch_generate_response`: the per-item image-similarity
results, with per-item failure recovery. -/
def imageResultsOf (c : Collab) (sq : List String) (ims : List Nat) :
    List (List SearchHit) :=
  ((sq.zip ims).enum).map (fun p => recoverHits (c.imageSearch p.1 p.2.2))

/-- Step 3 of `batch_generate_response`: the web-channel results.  A failing
or negative capability check leaves the whole list empty; a positive one
issues one recovered call per search query. -/
def webResultsOf (c : Collab) (sq : List String) : List (List SearchHit) :=
  match c.capCheck with
  | .error _ => []
  | .ok false => []
  | .ok true => (sq.enum).map (fun p => recoverHits (c.webSearch p.1 p.2))

/-- The image-channel evidence contexts of the batch. -/
def imageContextsOf (c : Collab) (qs : List String) (ims : List Nat)
    (hs : List (List Message)) : List String :=
  process_image_search_results (imageResultsOf c (prepare_search_queries qs ims hs) ims)

/-- The web-channel evidence contexts of the batch
(`process_web_search_results(...) if web_search_results else None`). -/
def webContextsOf (c : Collab) (qs : List String) (ims : List Nat)
    (hs : List (List Message)) : Option (List String) :=
  let wr := webResultsOf c (prepare_search_queries qs ims hs)
  if wr.isEmpty then Option.none else some (process_web_search_results wr)

/-- The prompts submitted to generation: assembled from the original
queries, never from the enhanced search queries. -/
def promptsOf (c : Collab) (qs : List String) (ims : List Nat)
    (hs : List (List Message)) : List PromptItem :=
  prepare_llm_prompts qs ims hs (some (imageContextsOf c qs ims hs))
    (webContextsOf c qs ims hs)

/-- The answers of the batched generation call, index-aligned with the
prompts. -/
def answersOf (c : Collab) (qs : List String) (ims : List Nat)
    (hs : List (List Message)) : List String :=
  (promptsOf c qs ims hs).map c.gen

/-- The fixed fallback answer of a batch with no images. -/
def fallbackMessage : String :=
  "I don" ++ String.singleton aposChar ++ "t have an image to analyze."

/-- The outcome of one batch: the answers, the session cache after the
update, and a log of the collaborator calls performed. -/
structure BatchResult where
  answers : List String
  cacheAfter : SessionCache
  imageSearchCalls : Nat
  webSearchCalls : Nat
  genCalled : Bool
deriving DecidableEq

/-- `RAGMMAgent.batch_generate_response`: an image-less batch short-circuits
to one fallback answer per query with no collaborator calls; otherwise the
pipeline runs end to end and the session cache is updated from the answers. -/
def batch_generate_response (c : Collab) (cache : SessionCache)
    (qs : List String) (ims : List Nat) (hs : List (List Message)) : BatchResult :=
  if ims = [] then
    { answers := List.replicate qs.length fallbackMessage
      cacheAfter := cache
      imageSearchCalls := 0
      webSearchCalls := 0
      genCalled := false }
  else
    let sq := prepare_search_queries qs ims hs
    let answers := answersOf c qs ims hs
    { answers := answers
      cacheAfter := update_session_cache cache qs answers hs
      imageSearchCalls := (sq.zip ims).length
      webSearchCalls :=
        match c.capCheck with
        | .ok true => sq.length
        | _ => 0
      genCalled := true }

/-! ### Concrete inputs used by witnesses and counterexamples -/

/-- A history whose first user turn carries domain id 0 (food) and whose
third turn (also a user turn at an even position) carries domain id 2
(landmark). -/
def twoDomainHist : List Message :=
  [{ role := some "user", content := some (Content.dict [("domain", PyVal.int 0)]) },
   { role := some "assistant", content := some (Content.str "ok") },
   { role := some "user", content := some (Content.dict [("domain", PyVal.int 2)]) }]

/-- A history whose only turn carries the explicit domain id 12 ("other"). -/
def otherDomainHist : List Message :=
  [{ role := some "user", content := some (Content.dict [("domain", PyVal.int 12)]) }]

/-- A well-formed user turn with plain string content. -/
def goodTurn : Message :=
  { role := some "user", content := some (Content.str "hello") }

/-- A turn with neither role nor content. -/
def badTurn : Message := {}

/-- A user turn whose content is a dict payload carrying a text entry. -/
def dictTurn : Message :=
  { role := some "user", content := some (Content.dict [("text", PyVal.str "hi")]) }

/-- A history whose only turn carries the truthy session id "S". -/
def sessionHistS : List Message := [{ sessionId := some (PyVal.str "S") }]

/-- A history whose only turn carries the falsy session id "". -/
def sessionHistEmpty : List Message := [{ sessionId := some (PyVal.str "") }]

/-- A history whose first session_id-bearing turn holds "" and whose second
holds "S". -/
def sessionHistMixed : List Message :=
  [{ sessionId := some (PyVal.str "") }, { sessionId := some (PyVal.str "S") }]

/-- A collaborator that answers every call successfully with no hits. -/
def trivCollab : Collab :=
  { imageSearch := fun _ _ => Except.ok []
    capCheck := Except.ok false
    webSearch := fun _ _ => Except.ok []
    gen := fun _ => "" }

/-- A collaborator whose call number 0 raises on both retrieval channels. -/
def failingCollab : Collab :=
  { imageSearch := fun j _ => if j = 0 then Except.error () else Except.ok []
    capCheck := Except.ok true
    webSearch := fun j _ => if j = 0 then Except.error () else Except.ok []
    gen := fun _ => "answer" }

/-! ### Helper lemmas -/

theorem getLastD_cons (d : String) (rest : List String) (acc : String) :
    ((d :: rest).getLast?).getD acc = (rest.getLast?).getD d := by
  rw [List.getLast?_cons]; rfl

theorem sessionDomAux_eq (l : List Message) :
    ∀ (i : Nat) (acc : String),
      sessionDomAux i acc l = ((evenUserDomains i l).getLast?).getD acc := by
  induction l with
  | nil => intro i acc; rfl
  | cons m rest ih =>
    intro i acc
    simp only [sessionDomAux, evenUserDomains]
    cases h : turnDomain i m with
    | none => simp only [Option.getD_none]; exact ih (i + 1) acc
    | some d => simp only [Option.getD_some, getLastD_cons]; exact ih (i + 1) d

theorem firstMatch_first (ql : String) :
    ∀ (l : List (String × List String)) (i : Nat) (hi : i < l.length),
      kwMatches ql (l.get ⟨i, hi⟩).2 = true →
      (∀ j (hj : j < i), kwMatches ql (l.get ⟨j, Nat.lt_trans hj hi⟩).2 = false) →
      firstMatch ql l = (l.get ⟨i, hi⟩).1 := by
  intro l
  induction l with
  | nil => intro i hi; exact absurd hi (Nat.not_lt_zero i)
  | cons p rest ih =>
    intro i hi hmatch hprev
    cases i with
    | zero => simp only [List.get] at hmatch ⊢; simp [firstMatch, hmatch]
    | succ n =>
      have hzero : kwMatches ql p.2 = false := hprev 0 (Nat.succ_pos n)
      simp only [List.get] at hmatch ⊢
      simp only [firstMatch, hzero, Bool.false_eq_true, if_false]
      exact ih n (Nat.lt_of_succ_lt_succ hi) hmatch
        (fun j hj => hprev (j + 1) (Nat.succ_lt_succ hj))

theorem firstMatch_none (ql : String) :
    ∀ (l : List (String × List String)),
      (∀ p ∈ l, kwMatches ql p.2 = false) → firstMatch ql l = "other" := by
  intro l
  induction l with
  | nil => intro; rfl
  | cons p rest ih =>
    intro hall
    have h0 : kwMatches ql p.2 = false := hall p (List.mem_cons_self p rest)
    simp only [firstMatch, h0, Bool.false_eq_true, if_false]
    exact ih (fun q hq => hall q (List.mem_cons_of_mem p hq))

theorem cacheAppend_lookup_self (sid : PyVal) (pr : String × String) :
    ∀ cache : SessionCache,
      cacheLookup (cacheAppend cache sid pr) sid
        = some ((cacheLookup cache sid).getD [] ++ [pr]) := by
  intro cache
  induction cache with
  | nil => simp [cacheAppend, cacheLookup]
  | cons e rest ih =>
    by_cases he : e.1 = sid
    · simp only [cacheAppend, if_pos he, cacheLookup, if_pos he, Option.getD_some]
    · simp only [cacheAppend, if_neg he, cacheLookup, if_neg he, ih]

theorem cacheAppend_lookup_other (sid sid2 : PyVal) (pr : String × String)
    (hne : sid2 ≠ sid) :
    ∀ cache : SessionCache,
      cacheLookup (cacheAppend cache sid pr) sid2 = cacheLookup cache sid2 := by
  have hss : ¬(sid = sid2) := fun h => hne h.symm
  intro cache
  induction cache with
  | nil => simp only [cacheAppend, cacheLookup, if_neg hss]
  | cons e rest ih =>
    by_cases he : e.1 = sid
    · have h2 : ¬(e.1 = sid2) := by rw [he]; exact hss
      simp only [cacheAppend, if_pos he, cacheLookup, if_neg h2]
    · simp only [cacheAppend, if_neg he, cacheLookup]
      by_cases he2 : e.1 = sid2
      · rw [if_pos he2, if_pos he2]
      · rw [if_neg he2, if_neg he2, ih]

theorem cacheKeys_append_mem (sid : PyVal) (pr : String × String) :
    ∀ cache : SessionCache, sid ∈ cacheKeys cache →
      cacheKeys (cacheAppend cache sid pr) = cacheKeys cache := by
  intro cache
  induction cache with
  | nil => intro h; exact absurd h (List.not_mem_nil sid)
  | cons e rest ih =>
    intro hmem
    by_cases he : e.1 = sid
    · simp only [cacheAppend, if_pos he, cacheKeys, List.map_cons]
    · have hrest : sid ∈ cacheKeys rest := by
        simp only [cacheKeys, List.map_cons, List.mem_cons] at hmem
        rcases hmem with h | h
        · exact absurd h.symm he
        · exact h
      simp only [cacheAppend, if_neg he, cacheKeys, List.map_cons]
      have hr := ih hrest
      simp only [cacheKeys] at hr
      rw [hr]

theorem cacheKeys_append_not_mem (sid : PyVal) (pr : String × String) :
    ∀ cache : SessionCache, sid ∉ cacheKeys cache →
      cacheKeys (cacheAppend cache sid pr) = cacheKeys cache ++ [sid] := by
  intro cache
  induction cache with
  | nil => intro; simp only [cacheAppend, cacheKeys, List.map_cons, List.map_nil]; rfl
  | cons e rest ih =>
    intro hmem
    have he : e.1 ≠ sid := by
      intro h
      exact hmem (by simp only [cacheKeys, List.map_cons, List.mem_cons]; exact Or.inl h.symm)
    have hrest : sid ∉ cacheKeys rest := by
      intro h
      exact hmem (by simp only [cacheKeys, List.map_cons, List.mem_cons]; exact Or.inr h)
    simp only [cacheAppend, if_neg he, cacheKeys, List.map_cons]
    have hr := ih hrest
    simp only [cacheKeys] at hr
    rw [hr, List.cons_append]

theorem buildMessages_getLast (q : String) (h : List Message)
    (ic wc : Option String) :
    (buildMessages q h ic wc).getLast?
      = some (ChatMsg.mk "user" (MsgContent.imageAndText q)) := by
  simp only [buildMessages]
  exact List.getLast?_concat _

theorem prompts_getD (qs : List String) (ims : List Nat) (hs : List (List Message))
    (ic wc : Option (List String)) (i : Nat)
    (h1 : i < qs.length) (h2 : i < ims.length) (h3 : i < hs.length) :
    (prepare_llm_prompts qs ims hs ic wc).getD i (PromptItem.mk [] 0)
      = PromptItem.mk
          (buildMessages (qs.get ⟨i, h1⟩) (hs.get ⟨i, h3⟩) (ctxAt ic i) (ctxAt wc i))
          (ims.get ⟨i, h2⟩) := by
  have hz : i < (qs.zip (ims.zip hs)).length := by
    simp only [List.length_zip]; omega
  have hlen : i < ((qs.zip (ims.zip hs)).enum.map (fun p =>
      PromptItem.mk
        (buildMessages p.2.1 p.2.2.2 (ctxAt ic p.1) (ctxAt wc p.1)) p.2.2.1)).length := by
    simp only [List.length_map, List.enum_length]; exact hz
  simp only [prepare_llm_prompts]
  rw [List.getD_eq_getElem _ _ hlen]
  simp [List.getElem_map, List.getElem_enum, List.getElem_zip]

theorem imageResultsOf_subst (c : Collab) (sq : List String) (ims : List Nat)
    (i : Nat) (himg : ∀ img, c.imageSearch i img = Except.error ()) :
    imageResultsOf
        { c with imageSearch := fun j img =>
            if j = i then Except.ok [] else c.imageSearch j img } sq ims
      = imageResultsOf c sq ims := by
  simp only [imageResultsOf]
  apply List.map_congr_left
  intro p _
  by_cases hpi : p.1 = i
  · rw [hpi]; simp [himg, recoverHits]
  · simp [hpi]

theorem webResultsOf_subst (c : Collab) (sq : List String)
    (i : Nat) (hweb : ∀ q, c.webSearch i q = Except.error ()) :
    webResultsOf
        { c with webSearch := fun j q =>
            if j = i then Except.ok [] else c.webSearch j q } sq
      = webResultsOf c sq := by
  simp only [webResultsOf]
  cases hc : c.capCheck with
  | error e => rfl
  | ok b =>
    cases b with
    | false => rfl
    | true =>
      apply List.map_congr_left
      intro p _
      by_cases hpi : p.1 = i
      · rw [hpi]; simp [hweb, recoverHits]
      · simp [hpi]

theorem batch_generate_congr (c cNew : Collab) (cache : SessionCache)
    (qs : List String) (ims : List Nat) (hs : List (List Message))
    (hic : imageResultsOf cNew (prepare_search_queries qs ims hs) ims
         = imageResultsOf c (prepare_search_queries qs ims hs) ims)
    (hwc : webResultsOf cNew (prepare_search_queries qs ims hs)
         = webResultsOf c (prepare_search_queries qs ims hs))
    (hcap : cNew.capCheck = c.capCheck) (hgen : cNew.gen = c.gen) :
    batch_generate_response cNew cache qs ims hs
      = batch_generate_response c cache qs ims hs := by
  by_cases him : ims = []
  · simp [batch_generate_response, him]
  · simp only [batch_generate_response, if_neg him]
    simp only [answersOf, promptsOf, imageContextsOf, webContextsOf]
    rw [hic, hwc, hcap, hgen]

theorem answers_length (c : Collab) (cache : SessionCache) (qs : List String)
    (ims : List Nat) (hs : List (List Message))
    (hlen1 : ims.length = qs.length) (hlen2 : hs.length = qs.length) :
    (batch_generate_response c cache qs ims hs).answers.length = qs.length := by
  by_cases him : ims = []
  · simp [batch_generate_response, him]
  · simp only [batch_generate_response, if_neg him, answersOf, promptsOf,
      prepare_llm_prompts, List.length_map, List.enum_length, List.length_zip,
      hlen1, hlen2]
    omega

/-! ### Claim theorems -/

/-- C1 (counterexample): the pipeline's history-based domain extraction does
NOT return the first turn's domain.  In `twoDomainHist` the first even-position
user turn carries domain id 0 ("food") and the later one id 2 ("landmark"):
extraction returns "landmark", and a history whose only turn carries the
explicit domain id 12 still falls back to text inference (the query "battery"
is enhanced with the inferred "nature" prefix, not left unenhanced). -/
theorem c1_counterexample :
    (extract_session_info_one twoDomainHist).domain = "landmark"
    ∧ (extract_session_info_one twoDomainHist).domain ≠ get_domain_name (PyVal.int 0)
    ∧ prepare_search_queries ["battery"] [7] [otherDomainHist]
        = [enhance_query "battery" "nature"] := by
  refine ⟨by decide, by decide, by decide⟩

/-- C1 (amended): the pipeline's history-based domain extraction returns the
domain tag contributed by the LAST user turn at an even position whose dict
content carries a `domain` key ("other" when there is none), and the query
is enhanced with the text-inferred domain exactly when that extracted tag is
"other" (so also when a turn carries an id that maps to "other"). -/
theorem c1_pipeline_uses_last_domain :
    (∀ h : List Message,
      (extract_session_info_one h).domain
        = ((evenUserDomains 0 h).getLast?).getD "other")
    ∧ (∀ (q : String) (h : List Message),
        resolveItemDomain q h =
          if (extract_session_info_one h).domain = "other"
          then infer_domain_from_query q
          else (extract_session_info_one h).domain) := by
  exact ⟨fun h => sessionDomAux_eq h 0 "other", fun q h => rfl⟩

/-- C3: text-based domain inference is a first-match scan of the fixed
priority list: when the keyword set at position `i` matches the lowered query
and no earlier set does, the result is the domain at position `i` — however
the keywords are positioned inside the query text — and a query matching no
keyword set of any domain yields "other". -/
theorem c3_priority_inference (q : String) :
    (∀ i (hi : i < domain_keywords.length),
      kwMatches (strToLower q) (domain_keywords.get ⟨i, hi⟩).2 = true →
      (∀ j (hj : j < i),
        kwMatches (strToLower q) (domain_keywords.get ⟨j, Nat.lt_trans hj hi⟩).2 = false) →
      infer_domain_from_query q = (domain_keywords.get ⟨i, hi⟩).1)
    ∧ ((∀ p ∈ domain_keywords, kwMatches (strToLower q) p.2 = false) →
        infer_domain_from_query q = "other") := by
  constructor
  · intro i hi hmatch hprev
    exact firstMatch_first (strToLower q) domain_keywords i hi hmatch hprev
  · intro hall
    exact firstMatch_none (strToLower q) domain_keywords hall

/-- C3 (witness): "battery" matches both "nature" (position 7) and
"technology" (position 10); the earlier-listed "nature" wins, and a query
matching nothing yields "other". -/
theorem c3_witness :
    infer_domain_from_query "battery" = "nature"
    ∧ infer_domain_from_query "zzzz" = "other" := by
  constructor
  · have h := (c3_priority_inference "battery").1 7 (by decide) (by decide) (by decide)
    exact h
  · exact (c3_priority_inference "zzzz").2 (by decide)

/-- C5: a batch with an empty image list short-circuits: every query receives
the fixed fallback answer, in input order, with no retrieval call and no
generation call, for every collaborator, cache and history — returned as a
value, never an exception (the embedding is total). -/
theorem c5_missing_images_shortcircuit (c : Collab) (cache : SessionCache)
    (qs : List String) (hs : List (List Message)) :
    batch_generate_response c cache qs [] hs =
      { answers := List.replicate qs.length fallbackMessage
        cacheAfter := cache
        imageSearchCalls := 0
        webSearchCalls := 0
        genCalled := false } := rfl

/-- C6: the three tag resolutions are total functions agreeing with their
fixed tables on every valid id and returning the fixed default ("other",
"simple", "static") on every other input — negative, too large, non-integer
or `None`. -/
theorem c6_resolution_total :
    (∀ (k : Int) (v : String), (k, v) ∈ DOMAIN_MAP →
      get_domain_name (PyVal.int k) = v)
    ∧ (∀ i : Int, i < 0 ∨ 12 < i → get_domain_name (PyVal.int i) = "other")
    ∧ (∀ s, get_domain_name (PyVal.str s) = "other")
    ∧ get_domain_name PyVal.none = "other"
    ∧ (∀ (k : Int) (v : String), (k, v) ∈ QUERY_CATEGORY_MAP →
        get_query_category_name (PyVal.int k) = v)
    ∧ (∀ i : Int, i < 0 ∨ 7 < i → get_query_category_name (PyVal.int i) = "simple")
    ∧ (∀ s, get_query_category_name (PyVal.str s) = "simple")
    ∧ get_query_category_name PyVal.none = "simple"
    ∧ (∀ (k : Int) (v : String), (k, v) ∈ DYNAMISM_MAP →
        get_dynamism_name (PyVal.int k) = v)
    ∧ (∀ i : Int, i < 0 ∨ 3 < i → get_dynamism_name (PyVal.int i) = "static")
    ∧ (∀ s, get_dynamism_name (PyVal.str s) = "static")
    ∧ get_dynamism_name PyVal.none = "static" := by
  refine ⟨?_, ?_, fun s => rfl, rfl, ?_, ?_, fun s => rfl, rfl, ?_, ?_, fun s => rfl, rfl⟩
  · intro k v h; fin_cases h <;> rfl
  · intro i h
    simp only [get_domain_name, DOMAIN_MAP, mapGetD]
    repeat rw [if_neg (by omega)]
  · intro k v h; fin_cases h <;> rfl
  · intro i h
    simp only [get_query_category_name, QUERY_CATEGORY_MAP, mapGetD]
    repeat rw [if_neg (by omega)]
  · intro k v h; fin_cases h <;> rfl
  · intro i h
    simp only [get_dynamism_name, DYNAMISM_MAP, mapGetD]
    repeat rw [if_neg (by omega)]

/-- C6 (witness): concrete valid and invalid ids through all three
resolutions. -/
theorem c6_witness :
    get_domain_name (PyVal.int 11) = "transportation"
    ∧ get_domain_name (PyVal.int (-5)) = "other"
    ∧ get_query_category_name (PyVal.int 99) = "simple"
    ∧ get_dynamism_name (PyVal.int 4) = "static" := by
  refine ⟨?_, ?_, ?_, ?_⟩
  · exact c6_resolution_total.1 11 "transportation" (by decide)
  · exact c6_resolution_total.2.1 (-5) (by norm_num)
  · exact c6_resolution_total.2.2.2.2.2.1 99 (by norm_num)
  · exact c6_resolution_total.2.2.2.2.2.2.2.2.2.1 4 (by norm_num)

/-- C4: per-item failure isolation.  When the collaborator raises on item
`i`'s image-similarity call (or web call), the whole batch outcome — every
item's evidence contexts, prompts, answers and the session-cache update —
equals the outcome in which that call succeeded with no results, and the
batch is never aborted: one answer per query. -/
theorem c4_per_item_isolation (c : Collab) (cache : SessionCache)
    (qs : List String) (ims : List Nat) (hs : List (List Message)) (i : Nat)
    (himg : ∀ img, c.imageSearch i img = Except.error ())
    (hweb : ∀ q, c.webSearch i q = Except.error ())
    (hlen1 : ims.length = qs.length) (hlen2 : hs.length = qs.length) :
    batch_generate_response c cache qs ims hs
      = batch_generate_response
          { c with imageSearch := fun j img =>
              if j = i then Except.ok [] else c.imageSearch j img }
          cache qs ims hs
    ∧ batch_generate_response c cache qs ims hs
      = batch_generate_response
          { c with webSearch := fun j q =>
              if j = i then Except.ok [] else c.webSearch j q }
          cache qs ims hs
    ∧ (batch_generate_response c cache qs ims hs).answers.length = qs.length := by
  refine ⟨?_, ?_, answers_length c cache qs ims hs hlen1 hlen2⟩
  · exact (batch_generate_congr c
      { c with imageSearch := fun j img =>
          if j = i then Except.ok [] else c.imageSearch j img }
      cache qs ims hs (imageResultsOf_subst c _ ims i himg) rfl rfl rfl).symm
  · exact (batch_generate_congr c
      { c with webSearch := fun j q =>
          if j = i then Except.ok [] else c.webSearch j q }
      cache qs ims hs rfl (webResultsOf_subst c _ i hweb) rfl rfl).symm

/-- C4 (witness): a concrete one-item batch whose only image-search call
raises behaves exactly like the batch in which that call returned no hits,
and still yields one answer. -/
theorem c4_witness :
    failingCollab.imageSearch 0 7 = Except.error ()
    ∧ batch_generate_response failingCollab [] ["q"] [7] [[]]
        = batch_generate_response
            { failingCollab with imageSearch := fun j img =>
                if j = 0 then Except.ok [] else failingCollab.imageSearch j img }
            [] ["q"] [7] [[]]
    ∧ (batch_generate_response failingCollab [] ["q"] [7] [[]]).answers.length = 1 := by
  have h := c4_per_item_isolation failingCollab [] ["q"] [7] [[]] 0
    (fun img => rfl) (fun q => rfl) rfl rfl
  exact ⟨rfl, h.1, h.2.2⟩

/-- C7: the final user message of each assembled prompt carries the original
query text of that item, not the enhanced one; the texts handed to the
retrieval collaborator are exactly the enhanced queries
(`enhance_query` of the resolved domain); and the generation call consumes
prompts built from the original query list. -/
theorem c7_original_query_in_prompt (c : Collab) (qs : List String)
    (ims : List Nat) (hs : List (List Message)) (ic wc : Option (List String))
    (i : Nat) (h1 : i < qs.length) (h2 : i < ims.length) (h3 : i < hs.length) :
    ((prepare_llm_prompts qs ims hs ic wc).getD i (PromptItem.mk [] 0)).messages.getLast?
        = some (ChatMsg.mk "user" (MsgContent.imageAndText (qs.get ⟨i, h1⟩)))
    ∧ prepare_search_queries qs ims hs
        = (qs.zip (ims.zip hs)).map
            (fun p => enhance_query p.1 (resolveItemDomain p.1 p.2.2))
    ∧ answersOf c qs ims hs
        = (prepare_llm_prompts qs ims hs (some (imageContextsOf c qs ims hs))
            (webContextsOf c qs ims hs)).map c.gen := by
  refine ⟨?_, rfl, rfl⟩
  rw [prompts_getD qs ims hs ic wc i h1 h2 h3]
  exact buildMessages_getLast _ _ _ _

/-- C7 (witness): in a concrete one-item batch the last prompt message is the
user turn carrying the original query "orig". -/
theorem c7_witness :
    (0 : Nat) < 1
    ∧ ((prepare_llm_prompts ["orig"] [3] [[]] Option.none Option.none).getD 0
        (PromptItem.mk [] 0)).messages.getLast?
        = some (ChatMsg.mk "user" (MsgContent.imageAndText "orig")) := by
  have h := (c7_original_query_in_prompt trivCollab ["orig"] [3] [[]]
    Option.none Option.none 0 (by decide) (by decide) (by decide)).1
  exact ⟨by decide, h⟩

/-- C10: when the web-capability check itself raises, the whole batch
degrades to no web channel: the outcome equals the outcome under a check
that reports the capability absent, the web evidence context is absent for
every item, the image-channel contexts are unaffected, and the prompts are
exactly those assembled with no web context. -/
theorem c10_capcheck_degrade (c : Collab) (cache : SessionCache)
    (qs : List String) (ims : List Nat) (hs : List (List Message)) :
    batch_generate_response { c with capCheck := Except.error () } cache qs ims hs
      = batch_generate_response { c with capCheck := Except.ok false } cache qs ims hs
    ∧ webContextsOf { c with capCheck := Except.error () } qs ims hs = Option.none
    ∧ imageContextsOf { c with capCheck := Except.error () } qs ims hs
        = imageContextsOf c qs ims hs
    ∧ promptsOf { c with capCheck := Except.error () } qs ims hs
        = prepare_llm_prompts qs ims hs
            (some (imageContextsOf c qs ims hs)) Option.none := by
  exact ⟨rfl, rfl, rfl, rfl⟩

/-- C8 (counterexample): a dict-shaped structured content payload is NOT
re-rendered by concatenating its text parts — it is rendered with Python
`str`, so a turn whose content is the dict with entry `text: hi` sanitizes
to the dict display string, not to "hi". -/
theorem c8_counterexample :
    process_message_history [dictTurn]
      = [("user", pyStrValDict [("text", PyVal.str "hi")])]
    ∧ pyStrValDict [("text", PyVal.str "hi")] ≠ "hi" := by
  exact ⟨rfl, by decide⟩

/-- C8 (amended): prompt-history sanitization silently drops each turn
missing a role or a content field and keeps the remaining turns in order
with their roles; list-shaped structured payloads are flattened by joining
the text of parts typed "text" with single spaces, while dict-shaped
payloads are rendered with Python `str` and plain strings pass through. -/
theorem c8_sanitization :
    (∀ (m : Message) (rest : List Message),
      m.role = Option.none ∨ m.content = Option.none →
      process_message_history (m :: rest) = process_message_history rest)
    ∧ (∀ (m : Message) (rest : List Message) (r : String) (ct : Content),
        m.role = some r → m.content = some ct →
        process_message_history (m :: rest)
          = (r, renderContent ct) :: process_message_history rest)
    ∧ (∀ l, renderContent (Content.parts l)
        = String.intercalate " " (l.filterMap (fun p =>
            match p with
            | PartItem.dict pd =>
              if pd.ptype = some "text" then some (pd.ptext.getD "") else Option.none
            | PartItem.nondict => Option.none)))
    ∧ (∀ d, renderContent (Content.dict d) = pyStrValDict d)
    ∧ (∀ s, renderContent (Content.str s) = s) := by
  refine ⟨?_, ?_, fun l => rfl, fun d => rfl, fun s => rfl⟩
  · intro m rest h
    rcases h with h | h
    · simp [process_message_history, List.filterMap_cons, h]
    · cases hr : m.role <;> simp [process_message_history, List.filterMap_cons, h, hr]
  · intro m rest r ct hr hc
    simp [process_message_history, List.filterMap_cons, hr, hc]

/-- C8 (witness): a two-turn history where the second turn lacks both fields
sanitizes to just the first turn, flattened. -/
theorem c8_witness :
    goodTurn.role = some "user"
    ∧ process_message_history [goodTurn, badTurn] = [("user", "hello")] := by
  have h1 := c8_sanitization.2.1 goodTurn [badTurn] "user" (Content.str "hello") rfl rfl
  have h2 := c8_sanitization.1 badTurn [] (Or.inl rfl)
  refine ⟨rfl, ?_⟩
  rw [h1, h2]
  rfl

/-- C9 (counterexample): a history CAN carry a session identifier and still
leave the store untouched.  A turn whose `session_id` value is the falsy ""
makes the update a no-op (nothing is appended under key ""), and because the
first `session_id`-bearing turn wins, it even masks a later turn carrying
the perfectly good id "S". -/
theorem c9_counterexample :
    update_session_cache_one [] "q1" "r1" sessionHistEmpty = []
    ∧ findSessionId sessionHistEmpty = some (PyVal.str "")
    ∧ update_session_cache_one [] "q1" "r1" sessionHistMixed = []
    ∧ findSessionId sessionHistMixed = some (PyVal.str "") := by
  exact ⟨rfl, rfl, rfl, rfl⟩

/-- C9 (amended): an update whose history has no `session_id`-bearing turn is
a no-op; an update whose FIRST `session_id`-bearing turn holds a falsy value
("", 0, None) is also a no-op; an update whose first such turn holds a truthy
id S appends exactly the pair (query, response) to the list under S, creating
it at the end when S is new; lookups under other keys are untouched and key
uniqueness is preserved. -/
theorem c9_session_update :
    (∀ (cache : SessionCache) (q r : String) (h : List Message),
      findSessionId h = Option.none → update_session_cache_one cache q r h = cache)
    ∧ (∀ (cache : SessionCache) (q r : String) (h : List Message) (sid : PyVal),
        findSessionId h = some sid → pyTruthy sid = false →
        update_session_cache_one cache q r h = cache)
    ∧ (∀ (cache : SessionCache) (q r : String) (h : List Message) (sid : PyVal),
        findSessionId h = some sid → pyTruthy sid = true →
        update_session_cache_one cache q r h = cacheAppend cache sid (q, r))
    ∧ (∀ (cache : SessionCache) (sid : PyVal) (pr : String × String),
        cacheLookup (cacheAppend cache sid pr) sid
          = some ((cacheLookup cache sid).getD [] ++ [pr]))
    ∧ (∀ (cache : SessionCache) (sid sid2 : PyVal) (pr : String × String),
        sid2 ≠ sid →
        cacheLookup (cacheAppend cache sid pr) sid2 = cacheLookup cache sid2)
    ∧ (∀ (cache : SessionCache) (sid : PyVal) (pr : String × String),
        (cacheKeys cache).Nodup → (cacheKeys (cacheAppend cache sid pr)).Nodup) := by
  refine ⟨?_, ?_, ?_, fun cache sid pr => cacheAppend_lookup_self sid pr cache,
    fun cache sid sid2 pr hne => cacheAppend_lookup_other sid sid2 pr hne cache, ?_⟩
  · intro cache q r h hfind
    by_cases hh : h = []
    · simp [update_session_cache_one, hh]
    · simp [update_session_cache_one, hh, hfind]
  · intro cache q r h sid hfind htruthy
    by_cases hh : h = []
    · simp [update_session_cache_one, hh]
    · simp [update_session_cache_one, hh, hfind, htruthy]
  · intro cache q r h sid hfind htruthy
    have hh : h ≠ [] := by
      intro h0
      rw [h0] at hfind
      exact Option.noConfusion hfind
    simp [update_session_cache_one, hh, hfind, htruthy]
  · intro cache sid pr hnd
    by_cases hmem : sid ∈ cacheKeys cache
    · rw [cacheKeys_append_mem sid pr cache hmem]; exact hnd
    · rw [cacheKeys_append_not_mem sid pr cache hmem]
      simp [List.nodup_append, hnd, hmem]

/-- C9 (witness): an update carrying the truthy session id "S" on an empty
store creates exactly the entry for "S" with the single pair, and a second
update with no session id leaves it unchanged. -/
theorem c9_witness :
    findSessionId sessionHistS = some (PyVal.str "S")
    ∧ update_session_cache_one [] "q1" "r1" sessionHistS
        = [(PyVal.str "S", [("q1", "r1")])]
    ∧ update_session_cache_one [(PyVal.str "S", [("q1", "r1")])] "q2" "r2" []
        = [(PyVal.str "S", [("q1", "r1")])] := by
  refine ⟨rfl, ?_, ?_⟩
  · have h := c9_session_update.2.2.1 [] "q1" "r1" sessionHistS (PyVal.str "S") rfl rfl
    rw [h]
    rfl
  · exact c9_session_update.1 _ "q2" "r2" [] rfl

/-- C2 (counterexample): the two formatters do not implement the common scrub
the claim describes.  The generic formatter keeps a value containing the
line-break marker `<br` whole instead of truncating it, and the landmark
formatter emits a bare-URL address instead of suppressing the field. -/
theorem c2_counterexample :
    parse_generic [("k", AttrVal.str "a<br>b")] = "<Info>\nk: a<br>b\n</Info>"
    ∧ strContains "a<br>b" "<br" = true
    ∧ parse_landmark [("name", AttrVal.str "N"), ("address", AttrVal.str "http://x")]
        = "<Landmark>\nName: N\nAddress: http://x\n</Landmark>"
    ∧ strStartsWith "http://x" "http" = true := by
  exact ⟨by decide, by decide, by decide, by decide⟩

/-- C2 (amended): the scrubbing is split between the two formatters.  The
generic formatter strips the double-bracket and double-brace markers from a
string value and suppresses the field when the cleaned value is empty,
starts with "http", or contains "URL|" — but does not truncate at line-break
markers; in particular "[[Paris]]" renders as "Paris" and "http://x" and a
"URL|" template produce no line.  The landmark formatter strips only the
double-bracket markers of its wiki-link fields (address, type, style,
architect), truncates the address at the first "<br" and the name only when
the name contains a double-brace opener (without stripping the braces). -/
theorem c2_formatter_scrub :
    (∀ k v, k ∉ genericSkipKeys →
      parse_generic [(k, AttrVal.str v)] =
        (if stripMarkers v = "" || strStartsWith (stripMarkers v) "http"
              || strContains (stripMarkers v) "URL|"
         then "<Info>\n</Info>"
         else "<Info>\n" ++ (k ++ ": " ++ stripMarkers v ++ "\n") ++ "</Info>"))
    ∧ parse_generic [("x", AttrVal.str "[[Paris]]")] = "<Info>\nx: Paris\n</Info>"
    ∧ parse_generic [("x", AttrVal.str "http://x")] = "<Info>\n</Info>"
    ∧ parse_generic [("x", AttrVal.str "\x7b\x7bURL|http://e\x7d\x7d")] = "<Info>\n</Info>"
    ∧ parse_landmark [("name", AttrVal.str "N"), ("address", AttrVal.str "[[A]]<br>B")]
        = "<Landmark>\nName: N\nAddress: A\n</Landmark>"
    ∧ parse_landmark [("name", AttrVal.str "\x7b\x7bX<br>Y")]
        = "<Landmark>\nName: \x7b\x7bX\n</Landmark>"
    ∧ parse_landmark [("name", AttrVal.str "N"), ("architect", AttrVal.str "[[Z]]")]
        = "<Landmark>\nName: N\nArchitect: Z\n</Landmark>" := by
  refine ⟨?_, by decide, by decide, by decide, by decide, by decide, by decide⟩
  intro k v hk
  simp only [parse_generic, List.foldl]
  rw [if_neg hk]
  split
  · decide
  · rfl

/-- C2 (witness): the general suppression/stripping clause applied at a
concrete non-skipped key. -/
theorem c2_witness :
    "kk" ∉ genericSkipKeys
    ∧ parse_generic [("kk", AttrVal.str "[[A]]")] = "<Info>\nkk: A\n</Info>" := by
  refine ⟨by decide, ?_⟩
  have h := c2_formatter_scrub.1 "kk" "[[A]]" (by decide)
  rw [h]
  decide
